import Mathlib

/-!
Shallow embedding of the heyatlas/cache connection manager (src/cache.ts),
its namespaced store layer (src/createCacheStore.ts), and the connection
lifecycle state machine of Cache.connect, together with proofs of the
behavioural claims about them.

The remote store (Redis) is an external collaborator: its key/value
contents are modelled as an association list of entries carrying the
stored text and the expiry argument that was passed (plain SET stores no
expiry, SETEX stores the ttl it was given).  JSON.parse of the JavaScript
runtime is passed as an abstract parameter; JSON.stringify is modelled
concretely on the small value universe used here.
-/

set_option autoImplicit false

namespace HeyatlasCache

/-- Model of a JavaScript value as far as the cache code inspects it:
lodash isNil distinguishes null and undefined from every other shape. -/
inductive JSValue where
  | vNull
  | vUndefined
  | vBool (b : Bool)
  | vNum (n : Int)
  | vStr (s : String)
  deriving DecidableEq, Repr

/-- lodash isNil: true exactly for null and undefined. -/
def isNil : JSValue → Bool
  | .vNull => true
  | .vUndefined => true
  | _ => false

/-- Model of JSON.stringify of the JavaScript runtime (collaborator) on the
value universe above.  JSON.stringify(undefined) yields undefined in JS;
the cache only serializes after the nil guard on the top-level set path. -/
def jsonStringify : JSValue → String
  | .vNull => "null"
  | .vUndefined => "undefined"
  | .vBool true => "true"
  | .vBool false => "false"
  | .vNum n => toString n
  | .vStr s => "\"" ++ s ++ "\""

/-- CacheConfig of src/cache.ts (second revision): host required, the rest
optional. -/
structure CacheConfig where
  host : String
  port : Option Int
  username : Option String
  password : Option String
  tlsEnabled : Option Bool
  deriving DecidableEq, Repr

/-- The ambient process.env.NODE_ENV environment variable (possibly unset). -/
abbrev Env := Option String

/-- The test of process.env.NODE_ENV === "test" used by getHost and getKey. -/
def isTestEnv : Env → Bool
  | some s => s == "test"
  | none => false

/-- Cache.getHost: rewrites the host to localhost under the test
execution context, otherwise uses the configured host unchanged. -/
def getHost (env : Env) (cfg : CacheConfig) : String :=
  if isTestEnv env then "localhost" else cfg.host

/-- Cache.getKey: prefixes the physical key with the literal token
"test:" under the test execution context, otherwise the raw key. -/
def getKey (env : Env) (key : String) : String :=
  if isTestEnv env then "test:" ++ key else key

/-- One entry of the remote store: physical key, stored text, and the
expiry argument the write carried (none for plain SET, some ttl for SETEX). -/
structure StoreEntry where
  key : String
  text : String
  expiry : Option Int
  deriving DecidableEq, Repr

/-- The remote store contents, newest entry first. -/
abbrev Store := List StoreEntry

/-- Text stored at a physical key (the collaborator GET). -/
def storeGet (st : Store) (k : String) : Option String :=
  (st.find? (fun e => e.key == k)).map (fun e => e.text)

/-- The full entry stored at a physical key, expiry included. -/
def storeEntry (st : Store) (k : String) : Option StoreEntry :=
  st.find? (fun e => e.key == k)

/-- Overwrite the entry at a physical key (the collaborator write). -/
def storeWrite (st : Store) (k text : String) (expiry : Option Int) : Store :=
  ⟨k, text, expiry⟩ :: st.filter (fun e => e.key != k)

/-- Remove the entry at a physical key (the collaborator DEL). -/
def storeDel (st : Store) (k : String) : Store :=
  st.filter (fun e => e.key != k)

/-- Plain SET of the remote store client: no expiration recorded. -/
def redisSet (st : Store) (k v : String) : Store :=
  storeWrite st k v none

/-- SETEX of the remote store client: records the ttl it was given. -/
def redisSetex (st : Store) (k : String) (t : Int) (v : String) : Store :=
  storeWrite st k v (some t)

/-- Redis KEYS glob matching restricted to literal characters and the
star wildcard, the only pattern shapes this repository uses. -/
def globMatch : List Char → List Char → Bool
  | [], cs => cs.isEmpty
  | p :: ps, cs =>
    if p == '*' then
      match cs with
      | [] => globMatch ps []
      | c :: cs2 => globMatch ps (c :: cs2) || globMatch (p :: ps) cs2
    else
      match cs with
      | [] => false
      | c :: cs2 => p == c && globMatch ps cs2
termination_by ps cs => ps.length + cs.length

/-- The mutable fields of a Cache instance that the data operations read,
together with the collaborator store the client handle gives access to.
redis is the nullable client handle (a client identifier when present). -/
structure CacheState where
  isReady : Bool
  redis : Option Nat
  store : Store
  deriving DecidableEq, Repr

/-- The errors the cache layer raises, by construction site. -/
inductive CacheError where
  /-- getInstance called with no instance and no configuration. -/
  | notInitialized
  /-- getConnection: the readiness flag is false or the handle is null. -/
  | notConnected
  /-- set: the value is null or undefined. -/
  | invalidValue
  /-- setBulk: some commands of the batch carried errors (failed of total). -/
  | bulkFailure (failed total : Nat)
  /-- pipeline.exec itself rejected; the cause propagates unchanged. -/
  | transport (msg : String)
  deriving DecidableEq, Repr

/-- Cache.isConnected: readiness flag set and handle present. -/
def isConnected (s : CacheState) : Bool :=
  s.isReady && s.redis.isSome

/-- Cache.getConnection: returns the handle when ready and present,
otherwise raises the NotConnected error. -/
def getConnection (s : CacheState) : Except CacheError Nat :=
  if s.isReady then
    match s.redis with
    | some r => .ok r
    | none => .error .notConnected
  else .error .notConnected

/-- Cache.set: nil guard first, then the connection gate, then JSON
serialization, key resolution, and a SETEX write when the ttl argument is
truthy (a present nonzero number) or a plain SET write otherwise. -/
def Cache.set (env : Env) (s : CacheState) (rawKey : String) (value : JSValue)
    (ttl : Option Int) : Except CacheError CacheState :=
  if isNil value then .error .invalidValue
  else
    match getConnection s with
    | .error e => .error e
    | .ok _ =>
      let v := jsonStringify value
      let key := getKey env rawKey
      match ttl with
      | some t =>
        if t != 0 then .ok { s with store := redisSetex s.store key t v }
        else .ok { s with store := redisSet s.store key v }
      | none => .ok { s with store := redisSet s.store key v }

/-- Cache.get: connection gate, key resolution, then the read.  An absent
key is the miss sentinel (ok none); present text is JSON-decoded through
the runtime parser passed as a parameter, falling back to the raw text
verbatim when parsing fails. -/
def Cache.get (parse : String → Option JSValue) (env : Env) (s : CacheState)
    (rawKey : String) : Except CacheError (Option JSValue) :=
  match getConnection s with
  | .error e => .error e
  | .ok _ =>
    let key := getKey env rawKey
    match storeGet s.store key with
    | none => .ok none
    | some value =>
      match parse value with
      | some v => .ok (some v)
      | none => .ok (some (.vStr value))

/-- Cache.keys: connection gate, then the collaborator KEYS with the
pattern resolved through the same key-prefixing rule. -/
def Cache.keys (env : Env) (s : CacheState) (pattern : String) :
    Except CacheError (List String) :=
  match getConnection s with
  | .error e => .error e
  | .ok _ =>
    .ok ((s.store.filter
      (fun e => globMatch (getKey env pattern).toList e.key.toList)).map
      (fun e => e.key))

/-- Cache.del: connection gate, then the collaborator DEL at the resolved
key. -/
def Cache.del (env : Env) (s : CacheState) (key : String) :
    Except CacheError CacheState :=
  match getConnection s with
  | .error e => .error e
  | .ok _ => .ok { s with store := storeDel s.store (getKey env key) }

/-- One command enqueued on a pipeline batch by the builder callback. -/
inductive PipelineCmd where
  | set (key text : String)
  | setex (key : String) (ttl : Int) (text : String)
  deriving DecidableEq, Repr

/-- Apply one pipeline command to the store. -/
def applyCmd (st : Store) : PipelineCmd → Store
  | .set k v => redisSet st k v
  | .setex k t v => redisSetex st k t v

/-- What the collaborator does with one pipeline round trip: either the
round trip itself rejects, or it resolves with one error-or-null result
component per command, in submission order. -/
inductive RoundTrip where
  | fails (msg : String)
  | succeeds (outcomes : List (Option String))
  deriving DecidableEq, Repr

/-- Commit of a successful round trip: commands whose result pair carries
a null error are applied to the store, in submission order; commands whose
pair carries an error leave the store unchanged. -/
def applyOutcomes (st : Store) : List PipelineCmd → List (Option String) → Store
  | [], _ => st
  | _, [] => st
  | c :: cs, o :: os =>
    applyOutcomes (if o.isNone then applyCmd st c else st) cs os

/-- Cache.executePipeline: connection gate, then one round trip with the
batch built by the callers builder (modelled as the resulting command
list).  Returns the error components of the per-command result pairs in
submission order; a round-trip rejection propagates unchanged. -/
def Cache.executePipeline (rt : RoundTrip) (s : CacheState)
    (cmds : List PipelineCmd) :
    Except CacheError (List (Option String)) × CacheState :=
  match getConnection s with
  | .error e => (.error e, s)
  | .ok _ =>
    match rt with
    | .fails msg => (.error (.transport msg), s)
    | .succeeds outcomes =>
      (.ok outcomes, { s with store := applyOutcomes s.store cmds outcomes })

/-- One item of a setBulk batch. -/
structure BulkItem where
  key : String
  value : JSValue
  ttl : Option Int
  deriving DecidableEq, Repr

/-- The command setBulk enqueues for one item: serialization and key
formatting as in set, SETEX when the ttl field is truthy (present and
nonzero), plain SET otherwise.  No nil guard is applied here. -/
def bulkCmd (env : Env) (it : BulkItem) : PipelineCmd :=
  let serializedValue := jsonStringify it.value
  let formattedKey := getKey env it.key
  match it.ttl with
  | some t =>
    if t != 0 then .setex formattedKey t serializedValue
    else .set formattedKey serializedValue
  | none => .set formattedKey serializedValue

/-- Cache.setBulk: builds one pipeline with one command per item, executes
it, then audits the per-command results: if any pair carries a non-null
error the whole call raises the aggregate failure naming the failed count
over the total count, with no rollback of the committed commands. -/
def Cache.setBulk (env : Env) (rt : RoundTrip) (s : CacheState)
    (items : List BulkItem) : Except CacheError Unit × CacheState :=
  match Cache.executePipeline rt s (items.map (bulkCmd env)) with
  | (.error e, s2) => (.error e, s2)
  | (.ok results, s2) =>
    let errors := results.filter (fun err => err.isSome)
    if errors.length > 0 then
      (.error (.bulkFailure errors.length items.length), s2)
    else (.ok (), s2)

/-- isNewItem of createCacheStore.ts: computes the namespaced key, calls
get through the shared instance; true when the result is the miss
sentinel, false when a value is present, and true when get raised for any
reason (fail-open). -/
def CacheStore.isNewItem (parse : String → Option JSValue) (env : Env)
    (s : CacheState) (ns key : String) : Bool :=
  let fullKey := ns ++ ":" ++ key
  match Cache.get parse env s fullKey with
  | .ok existingItem => existingItem.isNone
  | .error _ => true

/-- A constructed Cache object, identified by the configuration stored by
the private constructor. -/
structure CacheObj where
  config : CacheConfig
  deriving DecidableEq, Repr

/-- Cache.getInstance over an explicit static-instance slot: raises
NotInitialized when no instance exists and no configuration is supplied;
constructs and stores an instance when none exists and configuration is
supplied; otherwise returns the existing instance, ignoring the
configuration argument.  Returns the instance and the updated slot. -/
def Cache.getInstance (inst : Option CacheObj) (config : Option CacheConfig) :
    Except CacheError (CacheObj × Option CacheObj) :=
  match inst, config with
  | none, none => .error .notInitialized
  | none, some c => .ok (⟨c⟩, some ⟨c⟩)
  | some o, _ => .ok (o, some o)

/-- cacheInstance of src/cache.ts: delegates to Cache.getInstance. -/
def cacheInstance (inst : Option CacheObj) (config : Option CacheConfig) :
    Except CacheError (CacheObj × Option CacheObj) :=
  Cache.getInstance inst config

/-!
Connection lifecycle state machine of Cache.connect.

JavaScript runs each call to connect synchronously up to its first await:
the readiness check, the in-flight check, and the promise executor (which
constructs the remote client, arms the 5-second timer and registers the
ready and error handlers) all run atomically on the event loop.  The
events that settle the attempt (the ready event, an error event, or the
timer firing) run later, as separate event-loop turns.  N concurrent
connect calls are therefore modelled as N atomic call steps followed by
one settlement step for the attempt.
-/

/-- The event that settles a connection attempt: the ready handshake, the
error event of the client, or the 5-second establishment timer firing. -/
inductive AttemptEvent where
  | ready
  | errorEvent
  | timeout
  deriving DecidableEq, Repr

/-- The mutable fields of a Cache instance that connect touches, plus
bookkeeping observables: nextId names the client the next attempt would
construct, created lists every client constructed so far (one per
underlying connection attempt started), and disconnected lists every
client on which disconnect was called. -/
structure ConnState where
  isReady : Bool
  redis : Option Nat
  connectPromise : Option Nat
  nextId : Nat
  created : List Nat
  disconnected : List Nat
  deriving DecidableEq, Repr

/-- What one call to connect does before it suspends: resolve immediately
when already ready with a handle, or await an attempt (the in-flight one,
or a freshly started one). -/
inductive ConnectOutcome where
  | immediate
  | awaits (attempt : Nat)
  deriving DecidableEq, Repr

/-- The synchronous prefix of one connect call: return at once when ready
with a handle; join the in-flight attempt when connectPromise is set;
otherwise construct a new client, record the attempt in connectPromise,
and await it. -/
def connectCall (s : ConnState) : ConnectOutcome × ConnState :=
  if s.isReady && s.redis.isSome then (.immediate, s)
  else
    match s.connectPromise with
    | some a => (.awaits a, s)
    | none =>
      let c := s.nextId
      (.awaits c,
        { s with
          redis := some c
          connectPromise := some c
          nextId := c + 1
          created := s.created ++ [c] })

/-- N connect calls interleaved before the attempt settles: each runs its
atomic synchronous prefix in turn. -/
def connectCalls : Nat → ConnState → List ConnectOutcome × ConnState
  | 0, s => ([], s)
  | n + 1, s =>
    let r1 := connectCall s
    let r2 := connectCalls n r1.2
    (r1.1 :: r2.1, r2.2)

/-- Settlement of the in-flight attempt by its first event.  The ready
handler sets the readiness flag and resolves; the error handler clears
the readiness flag and rejects; the timer rejects and calls disconnect on
the handle.  In every case the finally block of the awaiting calls clears
connectPromise. -/
def settleAttempt (e : AttemptEvent) (s : ConnState) : ConnState :=
  match e with
  | .ready => { s with isReady := true, connectPromise := none }
  | .errorEvent => { s with isReady := false, connectPromise := none }
  | .timeout =>
    { s with
      connectPromise := none
      disconnected :=
        match s.redis with
        | some c => s.disconnected ++ [c]
        | none => s.disconnected }

/-- How one connect call settles once the attempt it awaits is settled by
event e: a call that returned immediately resolved on its own; a call
awaiting the attempt resolves exactly when the event is ready, and
rejects on the error event or the timeout. -/
def callerResult (e : AttemptEvent) : ConnectOutcome → Bool
  | .immediate => true
  | .awaits _ => e == .ready

/-- Whether the client c has been torn down in the state s: the handle no
longer references it, or disconnect was called on it. -/
def handleTornDown (s : ConnState) (c : Nat) : Bool :=
  s.redis != some c || s.disconnected.contains c

/-! Helper lemmas about the connection gate and the store model. -/

theorem getConnection_of_disconnected (s : CacheState)
    (h : isConnected s = false) : getConnection s = .error .notConnected := by
  cases hr : s.redis <;> cases hi : s.isReady <;>
    simp_all [isConnected, getConnection]

theorem getConnection_of_connected (s : CacheState) (r : Nat)
    (hready : s.isReady = true) (hr : s.redis = some r) :
    getConnection s = .ok r := by
  simp [getConnection, hready, hr]

theorem getConnection_cases (s : CacheState) :
    getConnection s = .error .notConnected ∨ ∃ r, getConnection s = .ok r := by
  unfold getConnection
  cases s.isReady <;> simp
  cases s.redis <;> simp

theorem storeGet_storeWrite_self (st : Store) (k v : String) (ex : Option Int) :
    storeGet (storeWrite st k v ex) k = some v := by
  simp [storeGet, storeWrite, List.find?]

theorem storeGet_storeDel_self (st : Store) (k : String) :
    storeGet (storeDel st k) k = none := by
  have hfind : (storeDel st k).find? (fun e => e.key == k) = none := by
    rw [List.find?_eq_none]
    intro x hx
    have hx2 := (List.mem_filter.mp hx).2
    simp only [bne_iff_ne, ne_eq] at hx2
    simp [hx2]
  simp [storeGet, hfind]

/-- Claim C9: the singleton accessor fails with NotInitialized when no
instance exists and no configuration is supplied; constructs and stores a
new instance when no instance exists and configuration is supplied; and
when an instance already exists, returns that existing instance
unconditionally, ignoring any configuration argument passed on the later
call.  cacheInstance delegates to the same accessor. -/
theorem getInstance_singleton_access :
    (Cache.getInstance none none = .error .notInitialized) ∧
    (∀ c : CacheConfig, Cache.getInstance none (some c) = .ok (⟨c⟩, some ⟨c⟩)) ∧
    (∀ (o : CacheObj) (cfg : Option CacheConfig),
      Cache.getInstance (some o) cfg = .ok (o, some o)) ∧
    (∀ (inst : Option CacheObj) (cfg : Option CacheConfig),
      cacheInstance inst cfg = Cache.getInstance inst cfg) := by
  refine ⟨rfl, fun c => rfl, fun o cfg => ?_, fun inst cfg => rfl⟩
  cases cfg <;> rfl

/-- Claim C4: set fails with the InvalidValue error exactly when the value
is null or undefined; no other input shape, state, or ttl triggers that
error. -/
theorem set_invalid_value_iff (env : Env) (s : CacheState) (k : String)
    (v : JSValue) (ttl : Option Int) :
    (Cache.set env s k v ttl = .error .invalidValue) ↔ isNil v = true := by
  cases hnil : isNil v
  · simp only [Cache.set, hnil, Bool.false_eq_true, if_false]
    rcases getConnection_cases s with hg | ⟨r, hg⟩ <;> rw [hg] <;>
      cases ttl with
      | none => simp
      | some t => by_cases ht : t != 0 <;> simp [ht]
  · simp [Cache.set, hnil]

/-- Claim C2 counterexample: on a disconnected state, set with a null
value fails with InvalidValue, not NotConnected — the null-value guard
runs before the connection gate, so the gate is not first for set. -/
theorem set_nil_guard_precedes_gate :
    Cache.set none ⟨false, none, []⟩ "k" .vNull none =
      .error .invalidValue ∧
    CacheError.invalidValue ≠ CacheError.notConnected := by
  exact ⟨rfl, by decide⟩

/-- Claim C2 (amended): get, keys, del, executePipeline and setBulk call
the connection gate first and fail with NotConnected whenever the
readiness flag is false or the handle is null, with no side effect on the
state; set runs its null-value guard before the gate, so when
disconnected it fails with NotConnected for every non-nil value and with
InvalidValue for nil values. -/
theorem data_ops_fail_fast_when_disconnected (env : Env) (s : CacheState)
    (parse : String → Option JSValue) (k pat : String) (v : JSValue)
    (ttl : Option Int) (rt : RoundTrip) (cmds : List PipelineCmd)
    (items : List BulkItem) (h : isConnected s = false) :
    Cache.get parse env s k = .error .notConnected ∧
    Cache.keys env s pat = .error .notConnected ∧
    Cache.del env s k = .error .notConnected ∧
    Cache.executePipeline rt s cmds = (.error .notConnected, s) ∧
    Cache.setBulk env rt s items = (.error .notConnected, s) ∧
    (isNil v = false → Cache.set env s k v ttl = .error .notConnected) := by
  have hg := getConnection_of_disconnected s h
  refine ⟨?_, ?_, ?_, ?_, ?_, ?_⟩
  · simp [Cache.get, hg]
  · simp [Cache.keys, hg]
  · simp [Cache.del, hg]
  · simp [Cache.executePipeline, hg]
  · simp [Cache.setBulk, Cache.executePipeline, hg]
  · intro hv
    simp [Cache.set, hv, hg]

/-- Claim C2 witness: the amended fail-fast statement instantiated on a
concrete disconnected state. -/
theorem data_ops_fail_fast_when_disconnected_witness :
    isConnected ⟨false, none, []⟩ = false ∧
    (Cache.get (fun _ => none) none ⟨false, none, []⟩ "k" =
      .error .notConnected ∧
    Cache.keys none ⟨false, none, []⟩ "*" = .error .notConnected ∧
    Cache.del none ⟨false, none, []⟩ "k" = .error .notConnected ∧
    Cache.executePipeline (.succeeds []) ⟨false, none, []⟩ [] =
      (.error .notConnected, ⟨false, none, []⟩) ∧
    Cache.setBulk none (.succeeds []) ⟨false, none, []⟩ [] =
      (.error .notConnected, ⟨false, none, []⟩) ∧
    (isNil (.vNum 7) = false →
      Cache.set none ⟨false, none, []⟩ "k" (.vNum 7) none =
        .error .notConnected)) :=
  ⟨rfl, data_ops_fail_fast_when_disconnected none ⟨false, none, []⟩
    (fun _ => none) "k" "*" (.vNum 7) none (.succeeds []) [] [] rfl⟩

/-- Claim C4 witness: the null-guard equivalence instantiated at a nil and
at a non-nil value on a concrete state. -/
theorem set_invalid_value_iff_witness :
    ((Cache.set none ⟨true, some 0, []⟩ "k" .vNull none =
        .error .invalidValue) ↔ isNil .vNull = true) ∧
    ((Cache.set none ⟨true, some 0, []⟩ "k" (.vStr "x") none =
        .error .invalidValue) ↔ isNil (.vStr "x") = true) :=
  ⟨set_invalid_value_iff none ⟨true, some 0, []⟩ "k" .vNull none,
   set_invalid_value_iff none ⟨true, some 0, []⟩ "k" (.vStr "x") none⟩

/-- Claim C5: on a connected manager, get returns the miss sentinel when
the store holds no text at the physical key, returns the decoded value
when the text parses as JSON, returns the raw text verbatim when parsing
fails, and never raises in any of these cases. -/
theorem get_miss_decode_fallback (parse : String → Option JSValue)
    (env : Env) (s : CacheState) (k : String) (r : Nat)
    (hready : s.isReady = true) (hr : s.redis = some r) :
    (storeGet s.store (getKey env k) = none →
      Cache.get parse env s k = .ok none) ∧
    (∀ text v, storeGet s.store (getKey env k) = some text →
      parse text = some v → Cache.get parse env s k = .ok (some v)) ∧
    (∀ text, storeGet s.store (getKey env k) = some text →
      parse text = none → Cache.get parse env s k = .ok (some (.vStr text))) ∧
    (∃ result, Cache.get parse env s k = .ok result) := by
  have hg := getConnection_of_connected s r hready hr
  refine ⟨?_, ?_, ?_, ?_⟩
  · intro hmiss
    simp [Cache.get, hg, hmiss]
  · intro text v htext hparse
    simp [Cache.get, hg, htext, hparse]
  · intro text htext hparse
    simp [Cache.get, hg, htext, hparse]
  · simp only [Cache.get, hg]
    cases hs : storeGet s.store (getKey env k) with
    | none => exact ⟨none, by simp⟩
    | some text =>
      cases hp : parse text with
      | none => exact ⟨some (.vStr text), by simp [hp]⟩
      | some v => exact ⟨some v, by simp [hp]⟩

/-- Claim C5 witness: the get semantics instantiated on a concrete
connected state holding one JSON text and one non-JSON text. -/
theorem get_miss_decode_fallback_witness :
    (⟨true, some 0, [⟨"a", "null", none⟩, ⟨"b", "junk", none⟩]⟩ :
        CacheState).isReady = true ∧
    (storeGet (⟨true, some 0, [⟨"a", "null", none⟩, ⟨"b", "junk", none⟩]⟩ :
        CacheState).store (getKey none "c") = none →
      Cache.get (fun t => if t == "null" then some .vNull else none) none
        ⟨true, some 0, [⟨"a", "null", none⟩, ⟨"b", "junk", none⟩]⟩ "c" =
        .ok none) :=
  ⟨rfl,
   (get_miss_decode_fallback
      (fun t => if t == "null" then some .vNull else none) none
      ⟨true, some 0, [⟨"a", "null", none⟩, ⟨"b", "junk", none⟩]⟩
      "c" 0 rfl rfl).1⟩

/-- Claim C7: isNewItem is total (it never raises): it returns true when
get on the physical key namespace:key yields the miss sentinel, returns
true when get fails for any reason (fail-open), and returns false only
when get returns a present value; in store terms, on a disconnected
manager it returns true, and on a connected one it returns true exactly
when the resolved physical key is absent. -/
theorem isNewItem_fail_open (parse : String → Option JSValue) (env : Env)
    (s : CacheState) (ns k : String) :
    (Cache.get parse env s (ns ++ ":" ++ k) = .ok none →
      CacheStore.isNewItem parse env s ns k = true) ∧
    (∀ e, Cache.get parse env s (ns ++ ":" ++ k) = .error e →
      CacheStore.isNewItem parse env s ns k = true) ∧
    (∀ v, Cache.get parse env s (ns ++ ":" ++ k) = .ok (some v) →
      CacheStore.isNewItem parse env s ns k = false) ∧
    (isConnected s = false → CacheStore.isNewItem parse env s ns k = true) ∧
    (∀ r, s.isReady = true → s.redis = some r →
      (CacheStore.isNewItem parse env s ns k = true ↔
        storeGet s.store (getKey env (ns ++ ":" ++ k)) = none)) := by
  refine ⟨?_, ?_, ?_, ?_, ?_⟩
  · intro hmiss
    simp [CacheStore.isNewItem, hmiss]
  · intro e herr
    simp [CacheStore.isNewItem, herr]
  · intro v hv
    simp [CacheStore.isNewItem, hv]
  · intro hdisc
    have hg := getConnection_of_disconnected s hdisc
    simp [CacheStore.isNewItem, Cache.get, hg]
  · intro r hready hr
    have hg := getConnection_of_connected s r hready hr
    simp only [CacheStore.isNewItem, Cache.get, hg]
    cases hs : storeGet s.store (getKey env (ns ++ ":" ++ k)) with
    | none => simp
    | some text => cases hp : parse text <;> simp [hp]

/-- Claim C7 witness: fail-open and miss-versus-present instantiated on a
concrete disconnected state and a concrete connected state. -/
theorem isNewItem_fail_open_witness :
    (isConnected ⟨false, none, []⟩ = false →
      CacheStore.isNewItem (fun _ => none) none ⟨false, none, []⟩
        "ns" "k" = true) ∧
    ((CacheStore.isNewItem (fun _ => none) none
        ⟨true, some 0, [⟨"ns:k", "1", none⟩]⟩ "ns" "k" = true) ↔
      storeGet (⟨true, some 0, [⟨"ns:k", "1", none⟩]⟩ : CacheState).store
        (getKey none ("ns" ++ ":" ++ "k")) = none) :=
  ⟨(isNewItem_fail_open (fun _ => none) none ⟨false, none, []⟩
      "ns" "k").2.2.2.1,
   (isNewItem_fail_open (fun _ => none) none
      ⟨true, some 0, [⟨"ns:k", "1", none⟩]⟩ "ns" "k").2.2.2.2 0 rfl rfl⟩

/-- Claim C8: under the test execution context every physical key is the
raw key prefixed with the literal token test: and the effective host is
localhost; outside test mode both are unchanged.  Writing key foo under
test mode stores it at physical key test:foo, get reads at test:foo, and
del removes test:foo. -/
theorem test_mode_key_and_host :
    (∀ k, getKey (some "test") k = "test:" ++ k) ∧
    (∀ cfg, getHost (some "test") cfg = "localhost") ∧
    (∀ env k, isTestEnv env = false → getKey env k = k) ∧
    (∀ env cfg, isTestEnv env = false → getHost env cfg = cfg.host) ∧
    (∀ (s : CacheState) (k : String) (v : JSValue) (s2 : CacheState),
      isNil v = false → Cache.set (some "test") s k v none = .ok s2 →
      storeGet s2.store ("test:" ++ k) = some (jsonStringify v)) ∧
    (∀ (parse : String → Option JSValue) (s : CacheState) (k : String)
        (r : Nat), s.isReady = true → s.redis = some r →
      storeGet s.store ("test:" ++ k) = none →
      Cache.get parse (some "test") s k = .ok none) ∧
    (∀ (s : CacheState) (k : String) (s2 : CacheState),
      Cache.del (some "test") s k = .ok s2 →
      storeGet s2.store ("test:" ++ k) = none) := by
  refine ⟨?_, ?_, ?_, ?_, ?_, ?_, ?_⟩
  · intro k
    simp [getKey, isTestEnv]
  · intro cfg
    simp [getHost, isTestEnv]
  · intro env k h
    simp [getKey, h]
  · intro env cfg h
    simp [getHost, h]
  · intro s k v s2 hv hset
    rcases getConnection_cases s with hg | ⟨r, hg⟩
    · simp [Cache.set, hv, hg] at hset
    · simp only [Cache.set, hv, Bool.false_eq_true, if_false, hg] at hset
      have hkey : getKey (some "test") k = "test:" ++ k := by
        simp [getKey, isTestEnv]
      rw [hkey] at hset
      cases hset
      exact storeGet_storeWrite_self s.store ("test:" ++ k) (jsonStringify v)
        none
  · intro parse s k r hready hr hmiss
    have hg := getConnection_of_connected s r hready hr
    have hkey : getKey (some "test") k = "test:" ++ k := by
      simp [getKey, isTestEnv]
    simp [Cache.get, hg, hkey, hmiss]
  · intro s k s2 hdel
    rcases getConnection_cases s with hg | ⟨r, hg⟩
    · simp [Cache.del, hg] at hdel
    · simp only [Cache.del, hg] at hdel
      have hkey : getKey (some "test") k = "test:" ++ k := by
        simp [getKey, isTestEnv]
      rw [hkey] at hdel
      cases hdel
      exact storeGet_storeDel_self s.store ("test:" ++ k)

/-- Claim C8 witness: the test-mode rewrite instantiated at key foo and a
concrete configuration and state: the write lands at test:foo. -/
theorem test_mode_key_and_host_witness :
    getKey (some "test") "foo" = "test:" ++ "foo" ∧
    getHost (some "test") ⟨"remote", none, none, none, none⟩ = "localhost" ∧
    (isNil (.vNum 1) = false →
      Cache.set (some "test") ⟨true, some 0, []⟩ "foo" (.vNum 1) none =
        .ok ⟨true, some 0, [⟨"test:foo", "1", none⟩]⟩ →
      storeGet (⟨true, some 0, [⟨"test:foo", "1", none⟩]⟩ :
          CacheState).store ("test:" ++ "foo") =
        some (jsonStringify (.vNum 1))) :=
  ⟨test_mode_key_and_host.1 "foo",
   test_mode_key_and_host.2.1 ⟨"remote", none, none, none, none⟩,
   test_mode_key_and_host.2.2.2.2.1 ⟨true, some 0, []⟩ "foo" (.vNum 1)
     ⟨true, some 0, [⟨"test:foo", "1", none⟩]⟩⟩

/-- Claim C10 counterexample: a negative ttl is truthy, so set with
ttl -1 takes the set-with-expiry path and records expiry -1, although -1
is not strictly positive; bulkCmd does the same. -/
theorem set_negative_ttl_uses_setex :
    Cache.set none ⟨true, some 0, []⟩ "k" (.vStr "x") (some (-1)) =
      .ok ⟨true, some 0, [⟨"k", "\"x\"", some (-1)⟩]⟩ ∧
    bulkCmd none ⟨"k", .vStr "x", some (-1)⟩ = .setex "k" (-1) "\"x\"" ∧
    ¬ (0 : Int) < -1 := by
  refine ⟨rfl, rfl, by decide⟩

/-- Claim C10 (amended): ttl = 0 and an absent ttl are falsy and select
the plain-set path, so the value is written with no expiration; every
nonzero ttl — negative values included — selects the set-with-expiry
primitive.  Likewise for the per-item commands of setBulk. -/
theorem ttl_falsy_selects_plain_set (env : Env) (s : CacheState)
    (k : String) (v : JSValue) (t : Int) (r : Nat) (it : BulkItem)
    (hready : s.isReady = true) (hr : s.redis = some r)
    (hv : isNil v = false) :
    Cache.set env s k v (some 0) =
      .ok { s with store := (redisSet s.store (getKey env k)
              (jsonStringify v)) } ∧
    Cache.set env s k v none =
      .ok { s with store := (redisSet s.store (getKey env k)
              (jsonStringify v)) } ∧
    (t ≠ 0 → Cache.set env s k v (some t) =
      .ok { s with store := (redisSetex s.store (getKey env k) t
              (jsonStringify v)) }) ∧
    (it.ttl = some 0 →
      bulkCmd env it = .set (getKey env it.key) (jsonStringify it.value)) ∧
    (it.ttl = none →
      bulkCmd env it = .set (getKey env it.key) (jsonStringify it.value)) ∧
    (it.ttl = some t → t ≠ 0 →
      bulkCmd env it =
        .setex (getKey env it.key) t (jsonStringify it.value)) := by
  have hg := getConnection_of_connected s r hready hr
  refine ⟨?_, ?_, ?_, ?_, ?_, ?_⟩
  · simp [Cache.set, hv, hg]
  · simp [Cache.set, hv, hg]
  · intro ht
    simp [Cache.set, hv, hg, ht]
  · intro hit
    simp [bulkCmd, hit]
  · intro hit
    simp [bulkCmd, hit]
  · intro hit ht
    simp [bulkCmd, hit, ht]

/-- Claim C10 witness: the amended ttl dichotomy instantiated at ttl 0 and
ttl 9 on a concrete connected state. -/
theorem ttl_falsy_selects_plain_set_witness :
    isNil (.vStr "x") = false ∧
    Cache.set none ⟨true, some 0, []⟩ "k" (.vStr "x") (some 0) =
      .ok { isReady := true, redis := some 0,
            store := redisSet [] (getKey none "k")
              (jsonStringify (.vStr "x")) } ∧
    ((9 : Int) ≠ 0 → Cache.set none ⟨true, some 0, []⟩ "k" (.vStr "x")
        (some 9) =
      .ok { isReady := true, redis := some 0,
            store := redisSetex [] (getKey none "k") 9
              (jsonStringify (.vStr "x")) }) :=
  ⟨rfl,
   (ttl_falsy_selects_plain_set none ⟨true, some 0, []⟩ "k" (.vStr "x") 9 0
     ⟨"k", .vStr "x", none⟩ rfl rfl rfl).1,
   (ttl_falsy_selects_plain_set none ⟨true, some 0, []⟩ "k" (.vStr "x") 9 0
     ⟨"k", .vStr "x", none⟩ rfl rfl rfl).2.2.1⟩

/-- Claim C6: on a connected manager whose pipeline round trip succeeds
with one result pair per item, setBulk fails with the aggregate error
naming the failed count over the total count exactly when at least one
pair carries a non-null error; commands that succeeded stay committed to
the store either way (no rollback), and the empty batch is a no-op that
raises nothing. -/
theorem setBulk_partial_failure_audit (env : Env) (s : CacheState)
    (items : List BulkItem) (outs : List (Option String)) (r : Nat)
    (hready : s.isReady = true) (hr : s.redis = some r)
    (hlen : outs.length = items.length) :
    ((Cache.setBulk env (.succeeds outs) s items).1 =
        .error (.bulkFailure (outs.filter (fun o => o.isSome)).length
          items.length)
      ↔ outs.any (fun o => o.isSome) = true) ∧
    (outs.any (fun o => o.isSome) = false →
      (Cache.setBulk env (.succeeds outs) s items).1 = .ok ()) ∧
    ((Cache.setBulk env (.succeeds outs) s items).2 =
      { s with store :=
          applyOutcomes s.store (items.map (bulkCmd env)) outs }) ∧
    Cache.setBulk env (.succeeds []) s [] = (.ok (), s) := by
  have hg := getConnection_of_connected s r hready hr
  have hfilter : ((outs.filter (fun o => o.isSome)).length > 0) ↔
      outs.any (fun o => o.isSome) = true := by
    rw [gt_iff_lt, List.length_pos, Ne, List.filter_eq_nil_iff]
    simp [List.any_eq_true, Option.isSome_iff_ne_none]
  refine ⟨?_, ?_, ?_, ?_⟩
  · constructor
    · intro h
      by_contra hany
      have hany2 : outs.any (fun o => o.isSome) = false := by
        revert hany
        cases outs.any (fun o => o.isSome) <;> simp
      have hlen0 : ¬ ((outs.filter (fun o => o.isSome)).length > 0) := by
        rw [hfilter, hany2]
        simp
      simp [Cache.setBulk, Cache.executePipeline, hg, hlen0] at h
    · intro hany
      have hlen0 : (outs.filter (fun o => o.isSome)).length > 0 :=
        hfilter.mpr hany
      simp [Cache.setBulk, Cache.executePipeline, hg, hlen0]
  · intro hany
    have hlen0 : ¬ ((outs.filter (fun o => o.isSome)).length > 0) := by
      rw [hfilter, hany]
      simp
    simp [Cache.setBulk, Cache.executePipeline, hg, hlen0]
  · by_cases hlen0 : (outs.filter (fun o => o.isSome)).length > 0 <;>
      simp [Cache.setBulk, Cache.executePipeline, hg, hlen0]
  · simp [Cache.setBulk, Cache.executePipeline, hg, applyOutcomes]

/-- Claim C6 witness: a three-item batch whose second result pair carries
an error fails naming 1 of 3 while items one and three stay committed,
instantiated concretely. -/
theorem setBulk_partial_failure_audit_witness :
    ([some "WRONGTYPE"].length = ([⟨"b", .vStr "y", none⟩] :
        List BulkItem).length) ∧
    (((Cache.setBulk none (.succeeds [some "WRONGTYPE"]) ⟨true, some 0, []⟩
        [⟨"b", .vStr "y", none⟩]).1 =
      .error (.bulkFailure
        (([some "WRONGTYPE"].filter (fun o => o.isSome)).length)
        ([⟨"b", .vStr "y", none⟩] : List BulkItem).length))
      ↔ [some "WRONGTYPE"].any (fun o => o.isSome) = true) :=
  ⟨rfl,
   (setBulk_partial_failure_audit none ⟨true, some 0, []⟩
     [⟨"b", .vStr "y", none⟩] [some "WRONGTYPE"] 0 rfl rfl rfl).1⟩

/-- Joining calls are inert: while an attempt is in flight and the
instance is not ready, every further connect call awaits that same
attempt and changes nothing. -/
theorem connectCalls_join (n : Nat) (a : Nat) :
    ∀ s : ConnState, s.isReady = false → s.connectPromise = some a →
      connectCalls n s = (List.replicate n (.awaits a), s) := by
  induction n with
  | zero =>
    intro s h1 h2
    rfl
  | succ m ih =>
    intro s h1 h2
    have hcall : connectCall s = (.awaits a, s) := by
      simp [connectCall, h1, h2]
    simp [connectCalls, hcall, ih s h1 h2, List.replicate]

/-- Claim C1: for every N at least 1, N connect calls interleaved on an
instance that is not ready and has no attempt in flight start exactly one
underlying connection attempt (one remote client is created), every call
awaits that same attempt, and once the attempt settles all N calls agree:
all resolve when the settling event is ready, all reject otherwise. -/
theorem connect_single_flight (s : ConnState) (n : Nat)
    (hready : s.isReady = false) (hcp : s.connectPromise = none)
    (hn : 1 ≤ n) :
    ((connectCalls n s).2.created.length = s.created.length + 1) ∧
    (∀ o ∈ (connectCalls n s).1, o = .awaits s.nextId) ∧
    (∀ e : AttemptEvent, ∀ o ∈ (connectCalls n s).1,
      callerResult e o = (e == .ready)) := by
  obtain ⟨m, rfl⟩ : ∃ m, n = m + 1 :=
    ⟨n - 1, (Nat.succ_pred_eq_of_pos hn).symm⟩
  have hcall : connectCall s =
      (.awaits s.nextId,
        { s with
          redis := some s.nextId
          connectPromise := some s.nextId
          nextId := s.nextId + 1
          created := s.created ++ [s.nextId] }) := by
    simp [connectCall, hready, hcp]
  have hjoin := connectCalls_join m s.nextId
    { s with
      redis := some s.nextId
      connectPromise := some s.nextId
      nextId := s.nextId + 1
      created := s.created ++ [s.nextId] } hready rfl
  have hall : connectCalls (m + 1) s =
      (.awaits s.nextId :: List.replicate m (.awaits s.nextId),
        { s with
          redis := some s.nextId
          connectPromise := some s.nextId
          nextId := s.nextId + 1
          created := s.created ++ [s.nextId] }) := by
    simp [connectCalls, hcall, hjoin]
  rw [hall]
  refine ⟨by simp, ?_, ?_⟩
  · intro o ho
    rcases List.mem_cons.mp ho with h | h
    · exact h
    · exact List.eq_of_mem_replicate h
  · intro e o ho
    have habit : o = .awaits s.nextId := by
      rcases List.mem_cons.mp ho with h | h
      · exact h
      · exact List.eq_of_mem_replicate h
    rw [habit]
    rfl

/-- Claim C1 witness: three interleaved connect calls on a fresh instance
create exactly one client and all await attempt 0. -/
theorem connect_single_flight_witness :
    (⟨false, none, none, 0, [], []⟩ : ConnState).isReady = false ∧
    (⟨false, none, none, 0, [], []⟩ : ConnState).connectPromise = none ∧
    1 ≤ 3 ∧
    (((connectCalls 3 ⟨false, none, none, 0, [], []⟩).2.created.length =
        (⟨false, none, none, 0, [], []⟩ : ConnState).created.length + 1) ∧
     (∀ o ∈ (connectCalls 3 ⟨false, none, none, 0, [], []⟩).1,
        o = .awaits (⟨false, none, none, 0, [], []⟩ : ConnState).nextId) ∧
     (∀ e : AttemptEvent,
        ∀ o ∈ (connectCalls 3 ⟨false, none, none, 0, [], []⟩).1,
        callerResult e o = (e == .ready))) :=
  ⟨rfl, rfl, by decide,
   connect_single_flight ⟨false, none, none, 0, [], []⟩ 3 rfl rfl
     (by decide)⟩

/-- Claim C3 counterexample: when the attempt started on a fresh instance
fails through the error event, the client handle is not torn down — the
handle still references client 0 and disconnect was never called on it —
even though the in-flight marker is cleared. -/
theorem connect_error_leaves_handle :
    (settleAttempt .errorEvent
      (connectCall ⟨false, none, none, 0, [], []⟩).2).redis = some 0 ∧
    (settleAttempt .errorEvent
      (connectCall ⟨false, none, none, 0, [], []⟩).2).disconnected = [] ∧
    handleTornDown
      (settleAttempt .errorEvent
        (connectCall ⟨false, none, none, 0, [], []⟩).2) 0 = false := by
  exact ⟨rfl, rfl, rfl⟩

/-- Claim C3 (amended): whenever a connection attempt fails — via the
error event or via the establishment timeout — the in-flight-attempt
marker is cleared, so a subsequent connect call starts a fresh attempt
with a new client; the client handle is disconnected only on the timeout
path, while on the error-event path the handle is left in place with no
disconnect call (only the readiness flag is cleared). -/
theorem connect_failure_clears_marker (s : ConnState) (e : AttemptEvent)
    (hready : s.isReady = false) (hfail : e ≠ .ready) :
    ((settleAttempt e s).connectPromise = none) ∧
    ((connectCall (settleAttempt e s)).1 =
      .awaits (settleAttempt e s).nextId) ∧
    ((connectCall (settleAttempt e s)).2.created.length =
      (settleAttempt e s).created.length + 1) ∧
    (∀ c, s.redis = some c → e = .timeout →
      c ∈ (settleAttempt e s).disconnected) ∧
    (e = .errorEvent → (settleAttempt e s).redis = s.redis ∧
      (settleAttempt e s).disconnected = s.disconnected) := by
  cases e with
  | ready => exact absurd rfl hfail
  | errorEvent =>
    refine ⟨rfl, ?_, ?_, ?_, ?_⟩
    · simp [connectCall, settleAttempt]
    · simp [connectCall, settleAttempt]
    · intro c hc habs
      cases habs
    · intro _
      exact ⟨rfl, rfl⟩
  | timeout =>
    refine ⟨rfl, ?_, ?_, ?_, ?_⟩
    · simp [connectCall, settleAttempt, hready]
    · simp [connectCall, settleAttempt, hready]
    · intro c hc _
      simp [settleAttempt, hc]
    · intro habs
      cases habs

/-- Claim C3 witness: the amended statement instantiated on a concrete
in-flight state settled by the timeout: the marker is cleared, the client
is disconnected, and a retry starts client 1. -/
theorem connect_failure_clears_marker_witness :
    (⟨false, some 0, some 0, 1, [0], []⟩ : ConnState).isReady = false ∧
    AttemptEvent.timeout ≠ AttemptEvent.ready ∧
    (((settleAttempt .timeout
        ⟨false, some 0, some 0, 1, [0], []⟩).connectPromise = none) ∧
     ((connectCall (settleAttempt .timeout
        ⟨false, some 0, some 0, 1, [0], []⟩)).1 =
       .awaits (settleAttempt .timeout
        ⟨false, some 0, some 0, 1, [0], []⟩).nextId) ∧
     ((connectCall (settleAttempt .timeout
        ⟨false, some 0, some 0, 1, [0], []⟩)).2.created.length =
       (settleAttempt .timeout
        ⟨false, some 0, some 0, 1, [0], []⟩).created.length + 1) ∧
     (∀ c, (⟨false, some 0, some 0, 1, [0], []⟩ : ConnState).redis = some c →
        AttemptEvent.timeout = .timeout →
        c ∈ (settleAttempt .timeout
          ⟨false, some 0, some 0, 1, [0], []⟩).disconnected) ∧
     (AttemptEvent.timeout = .errorEvent →
        (settleAttempt .timeout
          ⟨false, some 0, some 0, 1, [0], []⟩).redis =
          (⟨false, some 0, some 0, 1, [0], []⟩ : ConnState).redis ∧
        (settleAttempt .timeout
          ⟨false, some 0, some 0, 1, [0], []⟩).disconnected =
          (⟨false, some 0, some 0, 1, [0], []⟩ : ConnState).disconnected)) :=
  ⟨rfl, by decide,
   connect_failure_clears_marker ⟨false, some 0, some 0, 1, [0], []⟩
     .timeout rfl (by decide)⟩

end HeyatlasCache
